import Mathlib

/-!
Shallow embedding of the marketing-campaign backend core:
the Campaign aggregate (src/models/Campaign.js), the Persona access
methods (Persona model), the campaign controller (getCampaigns /
createCampaign / updateCampaign / deleteCampaign) and the content
generation controller together with the AIContentGenerator service.

Mongoose documents are modelled as plain structures, the collection as a
list, and every HTTP handler as a pure function from an environment
(store + external-capability oracle) to a response plus the updated
store.  JavaScript numbers are modelled as rationals.
-/

namespace Marketing

/-- Document identifiers are opaque strings (24-hex ObjectIds in the source). -/
abbrev Id := String

/-- Collaborator roles, from the campaignSchema collaborators enum. -/
inductive Role where
  | viewer
  | editor
  | admin
deriving DecidableEq, Repr

/-- One entry of campaignSchema.collaborators. -/
structure Collaborator where
  userId : Id
  role : Role
deriving DecidableEq, Repr

/-- Campaign status enum from campaignSchema.status. -/
inductive Status where
  | draft
  | generating
  | active
  | paused
  | completed
  | archived
deriving DecidableEq, Repr

/-- Status strings accepted by the schema enum validator. -/
def parseStatus : String → Option Status
  | "draft" => some Status.draft
  | "generating" => some Status.generating
  | "active" => some Status.active
  | "paused" => some Status.paused
  | "completed" => some Status.completed
  | "archived" => some Status.archived
  | _ => none

/-- String form of a status as stored in the document. -/
def statusString : Status → String
  | Status.draft => "draft"
  | Status.generating => "generating"
  | Status.active => "active"
  | Status.paused => "paused"
  | Status.completed => "completed"
  | Status.archived => "archived"

/-- Campaign performance metrics (campaignSchema.metrics). -/
structure Metrics where
  totalImpressions : Rat := 0
  totalClicks : Rat := 0
  totalConversions : Rat := 0
  totalSpent : Rat := 0
  ctr : Rat := 0
  cpc : Rat := 0
  cpa : Rat := 0
deriving DecidableEq, Repr

/-- Embedded content item (contentSchema). -/
structure Content where
  contentType : String
  platform : String
  subjectLine : Option String := none
  contentBody : String
  hashtags : List String := []
  qualityScore : Rat := 0
deriving DecidableEq, Repr

/-- Campaign generationSettings (the fields the controllers touch). -/
structure GenerationSettings where
  platforms : List String := []
  customInstructions : Option String := none
deriving DecidableEq, Repr

/-- The campaign document, restricted to the fields the verified
operations read or write. -/
structure Campaign where
  id : Id
  userId : Id
  personaId : Id
  name : String
  status : Status := Status.draft
  content : List Content := []
  collaborators : List Collaborator := []
  metrics : Metrics := {}
  generationSettings : GenerationSettings := {}
  isArchived : Bool := false
deriving DecidableEq, Repr

/-- The persona document, restricted to the fields the permission
checks read.  The owner reference is optional exactly as in the schema
(userId has no required flag when isPredefined). -/
structure Persona where
  id : Id
  userId : Option Id := none
  isPredefined : Bool := false
deriving DecidableEq, Repr

/-- The persistence store: campaign and persona collections. -/
structure Store where
  campaigns : List Campaign := []
  personas : List Persona := []
deriving DecidableEq, Repr

/-- Campaign.findById. -/
def findCampaign (s : Store) (cid : Id) : Option Campaign :=
  s.campaigns.find? (fun c => c.id == cid)

/-- Persona.findById. -/
def findPersona (s : Store) (pid : Id) : Option Persona :=
  s.personas.find? (fun p => p.id == pid)

/-- Replacement of a campaign document after a save. -/
def replaceCampaign (s : Store) (c : Campaign) : Store :=
  { s with campaigns := s.campaigns.map (fun old => if old.id == c.id then c else old) }

/-- Structured error kinds the handlers can answer with (404 / 403 /
400 validation / 503 / 500 generation failure in the source). -/
inductive Err where
  | notFound
  | permission
  | validation
  | serviceUnavailable
  | generation
deriving DecidableEq, Repr

/-- Instance method campaignSchema.methods.isOwnedBy. -/
def Campaign.isOwnedBy (c : Campaign) (userId : Id) : Bool :=
  c.userId == userId

/-- Instance method campaignSchema.methods.canBeEditedBy: the owner can
always edit, otherwise the first collaborator entry found for the user
decides via its role. -/
def Campaign.canBeEditedBy (c : Campaign) (userId : Id) : Bool :=
  if c.isOwnedBy userId then true
  else
    match c.collaborators.find? (fun col => col.userId == userId) with
    | some col => col.role == Role.editor || col.role == Role.admin
    | none => false

/-- Instance method personaSchema.methods.isOwnedBy: false when the
owner reference is absent (this.userId is falsy). -/
def Persona.isOwnedBy (p : Persona) (userId : Id) : Bool :=
  match p.userId with
  | some owner => owner == userId
  | none => false

/-- The persona gate shared by createCampaign, updateCampaign and every
content-generation handler: access is denied iff the persona is custom,
has an owner reference, and that owner is not the actor. -/
def personaAccessDenied (p : Persona) (userId : Id) : Bool :=
  !p.isPredefined && p.userId.isSome && !(p.isOwnedBy userId)

/-- Pre-save middleware on campaignSchema: each ratio is recomputed
only when its denominator counter is positive. -/
def computeMetricsHook (m : Metrics) : Metrics :=
  let m1 := if m.totalImpressions > 0 then
      { m with ctr := m.totalClicks / m.totalImpressions * 100 } else m
  let m2 := if m1.totalClicks > 0 then
      { m1 with cpc := m1.totalSpent / m1.totalClicks } else m1
  if m2.totalConversions > 0 then
    { m2 with cpa := m2.totalSpent / m2.totalConversions } else m2

/-- Platform enum of the embedded content schema. -/
def validPlatform (p : String) : Bool :=
  p == "email" || p == "linkedin" || p == "facebook" || p == "twitter" ||
  p == "instagram" || p == "youtube" || p == "tiktok"

/-- ContentType enum of the embedded content schema. -/
def validContentType (t : String) : Bool :=
  t == "email" || t == "social_post" || t == "ad_copy" || t == "blog_post"

/-- Hashtag validator of the content schema: the string starts with the
hash character. -/
def startsWithHash (h : String) : Bool :=
  match h.data with
  | [] => false
  | ch :: _ => ch == Char.ofNat 35

/-- Schema validation of one embedded content item: enums, length
limits, required body, hashtag prefix, quality-score range. -/
def validContent (c : Content) : Bool :=
  validContentType c.contentType &&
  validPlatform c.platform &&
  (match c.subjectLine with
   | some s => decide (s.length ≤ 200)
   | none => true) &&
  c.contentBody != "" &&
  decide (c.contentBody.length ≤ 5000) &&
  c.hashtags.all startsWithHash &&
  decide (0 ≤ c.qualityScore) && decide (c.qualityScore ≤ 100)

/-- Validation of the generationSettings subdocument (platform enum and
customInstructions maxlength), re-checked on every save. -/
def settingsValid (gs : GenerationSettings) : Bool :=
  gs.platforms.all validPlatform &&
  (match gs.customInstructions with
   | some s => decide (s.length ≤ 1000)
   | none => true)

/-- Campaign name validation (required, maxlength 200). -/
def validName (n : String) : Bool :=
  n != "" && decide (n.length ≤ 200)

/-- Instance method campaignSchema.methods.addContent: push the item
and save.  The save validates the modified paths (the new item and the
generation settings) and runs the pre-save metrics middleware; on a
validation failure nothing is persisted. -/
def Campaign.addContent (c : Campaign) (item : Content) : Except Err Campaign :=
  if validContent item && settingsValid c.generationSettings then
    Except.ok { c with
      content := c.content ++ [item],
      metrics := computeMetricsHook c.metrics }
  else
    Except.error Err.validation

/-- Decidable equality for Except results, used to evaluate handler
outcomes on concrete inputs. -/
instance {ε α : Type} [DecidableEq ε] [DecidableEq α] : DecidableEq (Except ε α) := fun
  | Except.ok a, Except.ok b =>
    if h : a = b then isTrue (by rw [h]) else isFalse (by intro he; cases he; exact h rfl)
  | Except.ok _, Except.error _ => isFalse (by intro h; cases h)
  | Except.error _, Except.ok _ => isFalse (by intro h; cases h)
  | Except.error a, Except.error b =>
    if h : a = b then isTrue (by rw [h]) else isFalse (by intro he; cases he; exact h rfl)

/-- Outcome of a campaign CRUD handler: the response body and the store
after the request. -/
structure CrudOutcome where
  response : Except Err Campaign
  store : Store
deriving DecidableEq, Repr

/-- Request body of POST /api/campaigns (the fields the model needs). -/
structure CreateBody where
  personaId : Id
  name : String
deriving DecidableEq, Repr

/-- Handler createCampaign: resolve the persona, apply the persona
gate, then construct the campaign with status draft and save it. -/
def createCampaign (s : Store) (userId : Id) (body : CreateBody) (newId : Id) :
    CrudOutcome :=
  match findPersona s body.personaId with
  | none => ⟨Except.error Err.notFound, s⟩
  | some p =>
    if personaAccessDenied p userId then ⟨Except.error Err.permission, s⟩
    else if !(validName body.name) then ⟨Except.error Err.validation, s⟩
    else
      let c : Campaign :=
        { id := newId, userId := userId, personaId := body.personaId,
          name := body.name, status := Status.draft }
      let c := { c with metrics := computeMetricsHook c.metrics }
      ⟨Except.ok c, { s with campaigns := s.campaigns ++ [c] }⟩

/-- Request body of PUT /api/campaigns/:id (subset of mutable fields
needed by the claims). -/
structure UpdatePatch where
  name : Option String := none
  status : Option String := none
  personaId : Option Id := none
deriving DecidableEq, Repr

/-- Validator run of findByIdAndUpdate (runValidators: true): each
patched path is validated; the document middleware of save does not
run on this update path. -/
def applyPatch (c : Campaign) (patch : UpdatePatch) : Except Err Campaign :=
  let nameRes : Except Err String :=
    match patch.name with
    | none => Except.ok c.name
    | some n => if validName n then Except.ok n else Except.error Err.validation
  let statusRes : Except Err Status :=
    match patch.status with
    | none => Except.ok c.status
    | some str =>
      match parseStatus str with
      | some st => Except.ok st
      | none => Except.error Err.validation
  match nameRes, statusRes with
  | Except.ok n, Except.ok st =>
    Except.ok { c with
      name := n,
      status := st,
      personaId := patch.personaId.getD c.personaId }
  | Except.error e, _ => Except.error e
  | _, Except.error e => Except.error e

/-- Handler updateCampaign: find, authorize via canBeEditedBy,
re-check persona access when personaId changes, then
findByIdAndUpdate with validators.  No status-lifecycle check exists
on this path. -/
def updateCampaign (s : Store) (cid : Id) (userId : Id) (patch : UpdatePatch) :
    CrudOutcome :=
  match findCampaign s cid with
  | none => ⟨Except.error Err.notFound, s⟩
  | some c =>
    if !(c.canBeEditedBy userId) then ⟨Except.error Err.permission, s⟩
    else
      let personaGate : Except Err Unit :=
        match patch.personaId with
        | some pid =>
          if pid != c.personaId then
            match findPersona s pid with
            | none => Except.error Err.notFound
            | some p =>
              if personaAccessDenied p userId then Except.error Err.permission
              else Except.ok ()
          else Except.ok ()
        | none => Except.ok ()
      match personaGate with
      | Except.error e => ⟨Except.error e, s⟩
      | Except.ok _ =>
        match applyPatch c patch with
        | Except.ok c2 => ⟨Except.ok c2, replaceCampaign s c2⟩
        | Except.error e => ⟨Except.error e, s⟩

/-- Outcome of DELETE /api/campaigns/:id. -/
structure DeleteOutcome where
  response : Except Err Unit
  store : Store
deriving DecidableEq, Repr

/-- Handler deleteCampaign: find the campaign, require ownership, then
findByIdAndDelete.  The handler contains no check of the campaign
status. -/
def deleteCampaign (s : Store) (cid : Id) (userId : Id) : DeleteOutcome :=
  match findCampaign s cid with
  | none => ⟨Except.error Err.notFound, s⟩
  | some c =>
    if !(c.isOwnedBy userId) then ⟨Except.error Err.permission, s⟩
    else ⟨Except.ok (), { s with campaigns := s.campaigns.filter (fun x => x.id != cid) }⟩

/-- External generation capability of AIContentGenerator, modelled as a
deterministic oracle.  Each completion call either yields text or
rejects.  The call index distinguishes the independent sub-calls of the
variations operation; the hashtag extraction of the raw social
completion (regex match plus trailing-block strip) is abstracted as the
oracle answering with the stripped body and the extracted tag list. -/
structure AiOracle where
  emailGen : Nat → Except Unit (String × String)
  socialGen : String → Nat → Except Unit (String × List String)
  adGen : String → Nat → Except Unit String
  score : String → Except Unit Rat

/-- Method scoreContentQuality: the secondary scoring call, clamped to
the range 0 to 100; an API failure is recovered locally with the fixed
default score 75. -/
def scoreContent (o : AiOracle) (body : String) : Rat :=
  match o.score body with
  | Except.ok v => max 0 (min 100 v)
  | Except.error _ => 75

/-- Method generateEmailContent of AIContentGenerator: two completion
calls (subject line, body) then the scoring call; any completion
failure rejects the whole call. -/
def svcEmail (o : AiOracle) (idx : Nat) : Except Unit Content :=
  match o.emailGen idx with
  | Except.error _ => Except.error ()
  | Except.ok (subj, body) =>
    Except.ok { contentType := "email", platform := "email",
                subjectLine := some subj, contentBody := body,
                hashtags := [], qualityScore := scoreContent o body }

/-- Method generateSocialContent of AIContentGenerator. -/
def svcSocial (o : AiOracle) (platform : String) (idx : Nat) : Except Unit Content :=
  match o.socialGen platform idx with
  | Except.error _ => Except.error ()
  | Except.ok (body, tags) =>
    Except.ok { contentType := "social_post", platform := platform,
                subjectLine := none, contentBody := body,
                hashtags := tags, qualityScore := scoreContent o body }

/-- Method generateAdCopy of AIContentGenerator, platform defaulting to
google-ads at the service signature. -/
def svcAd (o : AiOracle) (platform : String) (idx : Nat) : Except Unit Content :=
  match o.adGen platform idx with
  | Except.error _ => Except.error ()
  | Except.ok body =>
    Except.ok { contentType := "ad_copy", platform := platform,
                subjectLine := none, contentBody := body,
                hashtags := [], qualityScore := scoreContent o body }

/-- One promise of generateContentVariations, chosen by content type;
a content type outside the three supported ones contributes nothing. -/
def svcVarOne (o : AiOracle) (camp : Campaign) (contentType : String) (i : Nat) :
    Option (Except Unit Content) :=
  if contentType == "email" then some (svcEmail o i)
  else if contentType == "social_post" then
    some (svcSocial o (camp.generationSettings.platforms.headD "linkedin") i)
  else if contentType == "ad_copy" then some (svcAd o "google-ads" i)
  else none

/-- Join of a list of settled promises: resolves with all values when
every promise resolved, rejects when any promise rejected. -/
def promiseAll : List (Except Unit Content) → Except Unit (List Content)
  | [] => Except.ok []
  | Except.error _ :: _ => Except.error ()
  | Except.ok c :: rest =>
    match promiseAll rest with
    | Except.ok cs => Except.ok (c :: cs)
    | Except.error _ => Except.error ()

/-- Method generateContentVariations: N independent sub-calls joined as
one promise; the join rejects as soon as any sub-call rejects and no
result is returned in that case. -/
def svcVariations (o : AiOracle) (camp : Campaign) (contentType : String) (n : Nat) :
    Except Unit (List Content) :=
  promiseAll ((List.range n).filterMap (svcVarOne o camp contentType))

/-- Environment of a content-generation request: capability
configuration flag, the capability oracle, and the store. -/
structure Env where
  available : Bool
  oracle : AiOracle
  store : Store

/-- Outcome of a generation handler: response (the generated items on
success), the store after the request, and whether the handler reached
the campaign and persona lookups. -/
structure GenOutcome where
  response : Except Err (List Content)
  store : Store
  lookedUp : Bool

/-- Merge of customInstructions into the in-memory campaign settings,
guarded by JavaScript truthiness (an absent or empty string does not
merge). -/
def mergeInstructions (c : Campaign) (ci : Option String) : Campaign :=
  match ci with
  | some s =>
    if s == "" then c
    else { c with generationSettings :=
             { c.generationSettings with customInstructions := some s } }
  | none => c

/-- Request body of POST /api/content/generate-email. -/
structure EmailReq where
  campaignId : Id
  personaId : Id
  userId : Id
  customInstructions : Option String := none

/-- Handler generateEmailContent: availability gate, parallel lookups,
campaign editability, persona gate, instruction merge, generation,
append. -/
def generateEmailCtrl (env : Env) (req : EmailReq) : GenOutcome :=
  if !env.available then ⟨Except.error Err.serviceUnavailable, env.store, false⟩
  else
    match findCampaign env.store req.campaignId, findPersona env.store req.personaId with
    | none, _ => ⟨Except.error Err.notFound, env.store, true⟩
    | some _, none => ⟨Except.error Err.notFound, env.store, true⟩
    | some camp, some p =>
      if !(camp.canBeEditedBy req.userId) then
        ⟨Except.error Err.permission, env.store, true⟩
      else if personaAccessDenied p req.userId then
        ⟨Except.error Err.permission, env.store, true⟩
      else
        let camp := mergeInstructions camp req.customInstructions
        match svcEmail env.oracle 0 with
        | Except.error _ => ⟨Except.error Err.generation, env.store, true⟩
        | Except.ok item =>
          match camp.addContent item with
          | Except.ok c2 => ⟨Except.ok [item], replaceCampaign env.store c2, true⟩
          | Except.error e => ⟨Except.error e, env.store, true⟩

/-- Request body of POST /api/content/generate-social. -/
structure SocialReq where
  campaignId : Id
  personaId : Id
  userId : Id
  platform : String
  customInstructions : Option String := none

/-- Social platforms accepted by the generate-social handler. -/
def validSocialPlatform (p : String) : Bool :=
  p == "linkedin" || p == "facebook" || p == "twitter" ||
  p == "instagram" || p == "youtube" || p == "tiktok"

/-- Handler generateSocialContent: availability gate, platform
validation, then the same lookup / authorize / generate / append
pipeline. -/
def generateSocialCtrl (env : Env) (req : SocialReq) : GenOutcome :=
  if !env.available then ⟨Except.error Err.serviceUnavailable, env.store, false⟩
  else if !(validSocialPlatform req.platform) then
    ⟨Except.error Err.validation, env.store, false⟩
  else
    match findCampaign env.store req.campaignId, findPersona env.store req.personaId with
    | none, _ => ⟨Except.error Err.notFound, env.store, true⟩
    | some _, none => ⟨Except.error Err.notFound, env.store, true⟩
    | some camp, some p =>
      if !(camp.canBeEditedBy req.userId) then
        ⟨Except.error Err.permission, env.store, true⟩
      else if personaAccessDenied p req.userId then
        ⟨Except.error Err.permission, env.store, true⟩
      else
        let camp := mergeInstructions camp req.customInstructions
        match svcSocial env.oracle req.platform 0 with
        | Except.error _ => ⟨Except.error Err.generation, env.store, true⟩
        | Except.ok item =>
          match camp.addContent item with
          | Except.ok c2 => ⟨Except.ok [item], replaceCampaign env.store c2, true⟩
          | Except.error e => ⟨Except.error e, env.store, true⟩

/-- Request body of POST /api/content/generate-ad-copy; the platform
field is optional and defaults to google-ads in the handler. -/
structure AdReq where
  campaignId : Id
  personaId : Id
  userId : Id
  platform : Option String := none
  customInstructions : Option String := none

/-- Handler generateAdCopy: no platform validation exists on this
route; the default platform is google-ads. -/
def generateAdCopyCtrl (env : Env) (req : AdReq) : GenOutcome :=
  if !env.available then ⟨Except.error Err.serviceUnavailable, env.store, false⟩
  else
    match findCampaign env.store req.campaignId, findPersona env.store req.personaId with
    | none, _ => ⟨Except.error Err.notFound, env.store, true⟩
    | some _, none => ⟨Except.error Err.notFound, env.store, true⟩
    | some camp, some p =>
      if !(camp.canBeEditedBy req.userId) then
        ⟨Except.error Err.permission, env.store, true⟩
      else if personaAccessDenied p req.userId then
        ⟨Except.error Err.permission, env.store, true⟩
      else
        let camp := mergeInstructions camp req.customInstructions
        match svcAd env.oracle (req.platform.getD "google-ads") 0 with
        | Except.error _ => ⟨Except.error Err.generation, env.store, true⟩
        | Except.ok item =>
          match camp.addContent item with
          | Except.ok c2 => ⟨Except.ok [item], replaceCampaign env.store c2, true⟩
          | Except.error e => ⟨Except.error e, env.store, true⟩

/-- Request body of POST /api/content/generate-variations. -/
structure VarReq where
  campaignId : Id
  personaId : Id
  userId : Id
  contentType : String
  variations : Int := 2
  platform : Option String := none

/-- Content types accepted by the generate-variations handler. -/
def validVarContentType (t : String) : Bool :=
  t == "email" || t == "social_post" || t == "ad_copy"

/-- Sequential append loop over the resolved variations: each item is
appended through addContent; the first failed save stops the loop,
keeping the items persisted before it. -/
def appendLoop (c : Campaign) : List Content → Except (Campaign × Err) Campaign
  | [] => Except.ok c
  | item :: rest =>
    match c.addContent item with
    | Except.ok c2 => appendLoop c2 rest
    | Except.error e => Except.error (c, e)

/-- Settings adjustment performed by the variations handler before
generation: for social posts the platform list is overwritten with the
requested platform, defaulting to linkedin. -/
def varCampaign (camp : Campaign) (req : VarReq) : Campaign :=
  if req.contentType == "social_post" then
    { camp with generationSettings :=
        { camp.generationSettings with
          platforms := [req.platform.getD "linkedin"] } }
  else camp

/-- Handler generateContentVariations: availability gate, content-type
and count validation, lookups, authorization, platform settings
override for social posts, the joined generation call, then the
sequential append loop. -/
def generateVariationsCtrl (env : Env) (req : VarReq) : GenOutcome :=
  if !env.available then ⟨Except.error Err.serviceUnavailable, env.store, false⟩
  else if !(validVarContentType req.contentType) then
    ⟨Except.error Err.validation, env.store, false⟩
  else if req.variations < 2 || req.variations > 5 then
    ⟨Except.error Err.validation, env.store, false⟩
  else
    match findCampaign env.store req.campaignId, findPersona env.store req.personaId with
    | none, _ => ⟨Except.error Err.notFound, env.store, true⟩
    | some _, none => ⟨Except.error Err.notFound, env.store, true⟩
    | some camp, some p =>
      if !(camp.canBeEditedBy req.userId) then
        ⟨Except.error Err.permission, env.store, true⟩
      else if personaAccessDenied p req.userId then
        ⟨Except.error Err.permission, env.store, true⟩
      else
        let camp := varCampaign camp req
        match svcVariations env.oracle camp req.contentType req.variations.toNat with
        | Except.error _ => ⟨Except.error Err.generation, env.store, true⟩
        | Except.ok items =>
          match appendLoop camp items with
          | Except.ok c2 => ⟨Except.ok items, replaceCampaign env.store c2, true⟩
          | Except.error (cPart, e) =>
            ⟨Except.error e, replaceCampaign env.store cPart, true⟩

/-- Request body of POST /api/content/batch-generate (defaults as in
the handler destructuring). -/
structure BatchReq where
  campaignId : Id
  personaId : Id
  userId : Id
  contentTypes : List String := ["email", "social_post"]
  platforms : List String := ["email", "linkedin"]
  customInstructions : Option String := none

/-- Social leg of one batch iteration: the non-email platforms are
generated and appended one by one inside a single protected region, so
the first failure abandons the remaining platforms of this leg. -/
def runSocialLeg (o : AiOracle) (camp : Campaign) :
    List String → Campaign × List Content × Bool
  | [] => (camp, [], false)
  | pf :: rest =>
    match svcSocial o pf 0 with
    | Except.error _ => (camp, [], true)
    | Except.ok item =>
      match camp.addContent item with
      | Except.error _ => (camp, [], true)
      | Except.ok c2 =>
        let (cEnd, items, failed) := runSocialLeg o c2 rest
        (cEnd, item :: items, failed)

/-- Batch loop over the requested content types: every content type is
processed inside its own protected region, a failure being recorded as
one error-list entry (named by the content type here) without stopping
the following content types. -/
def runBatch (o : AiOracle) (camp : Campaign) (platforms : List String) :
    List String → Campaign × List Content × List String
  | [] => (camp, [], [])
  | ct :: rest =>
    let (c1, items1, errs1) :=
      if ct == "email" then
        match svcEmail o 0 with
        | Except.error _ => (camp, ([] : List Content), [ct])
        | Except.ok item =>
          match camp.addContent item with
          | Except.error _ => (camp, [], [ct])
          | Except.ok c2 => (c2, [item], [])
      else if ct == "social_post" then
        let (c2, items, failed) :=
          runSocialLeg o camp (platforms.filter (fun pf => pf != "email"))
        (c2, items, if failed then [ct] else [])
      else if ct == "ad_copy" then
        match svcAd o "google-ads" 0 with
        | Except.error _ => (camp, [], [ct])
        | Except.ok item =>
          match camp.addContent item with
          | Except.error _ => (camp, [], [ct])
          | Except.ok c2 => (c2, [item], [])
      else (camp, [], [])
    let (cEnd, items2, errs2) := runBatch o c1 platforms rest
    (cEnd, items1 ++ items2, errs1 ++ errs2)

/-- Outcome of the batch handler: the response always carries the
successful items together with the error list. -/
structure BatchOutcome where
  response : Except Err (List Content × List String)
  store : Store
  lookedUp : Bool

/-- Handler batchGenerateContent: availability gate, lookups,
authorization, instruction merge, then the best-effort batch loop whose
response is delivered with HTTP success even when items failed. -/
def batchGenerateCtrl (env : Env) (req : BatchReq) : BatchOutcome :=
  if !env.available then ⟨Except.error Err.serviceUnavailable, env.store, false⟩
  else
    match findCampaign env.store req.campaignId, findPersona env.store req.personaId with
    | none, _ => ⟨Except.error Err.notFound, env.store, true⟩
    | some _, none => ⟨Except.error Err.notFound, env.store, true⟩
    | some camp, some p =>
      if !(camp.canBeEditedBy req.userId) then
        ⟨Except.error Err.permission, env.store, true⟩
      else if personaAccessDenied p req.userId then
        ⟨Except.error Err.permission, env.store, true⟩
      else
        let camp := mergeInstructions camp req.customInstructions
        let (cEnd, items, errs) := runBatch env.oracle camp req.platforms req.contentTypes
        ⟨Except.ok (items, errs), replaceCampaign env.store cEnd, true⟩

/-! Concrete fixtures used to settle the claims on explicit inputs. -/

/-- An oracle whose every capability call rejects. -/
def failingOracle : AiOracle :=
  { emailGen := fun _ => Except.error (),
    socialGen := fun _ _ => Except.error (),
    adGen := fun _ _ => Except.error (),
    score := fun _ => Except.error () }

/-- Acive campaign owned by user u1, used for the delete claim. -/
def activeCamp : Campaign :=
  { id := "c1", userId := "u1", personaId := "p1", name := "Launch",
    status := Status.active }

/-- Store holding only activeCamp. -/
def activeStore : Store := { campaigns := [activeCamp] }

/-- Completed campaign owned by user u1, used for the update claims. -/
def completedCamp : Campaign :=
  { id := "c2", userId := "u1", personaId := "p1", name := "Old",
    status := Status.completed }

/-- Store holding only completedCamp. -/
def completedStore : Store := { campaigns := [completedCamp] }

/-- Draft campaign owned by user u1, used for witnesses. -/
def draftCamp : Campaign :=
  { id := "cw", userId := "u1", personaId := "p1", name := "Draft" }

/-- Store holding only draftCamp. -/
def draftStore : Store := { campaigns := [draftCamp] }

/-- Custom persona whose owner reference is absent. -/
def ownerlessPersona : Persona := { id := "p4" }

/-- Store holding only the ownerless persona. -/
def ownerlessStore : Store := { personas := [ownerlessPersona] }

/-- Campaign carrying two collaborator entries for the same user, a
viewer entry before an admin entry. -/
def dupCollabCamp : Campaign :=
  { id := "c5", userId := "u1", personaId := "p1", name := "Collab",
    collaborators :=
      [{ userId := "u2", role := Role.viewer },
       { userId := "u2", role := Role.admin }] }

/-- Metrics fixture with zero counters but a stale nonzero ctr. -/
def staleMetrics : Metrics := { ctr := 5, cpc := 7, cpa := 9 }

/-- Metrics fixture with positive counters. -/
def liveMetrics : Metrics :=
  { totalImpressions := 200, totalClicks := 10, totalConversions := 2,
    totalSpent := 50 }

/-- Specification-style reading of edit permission: the entry deciding
access is the first collaborator entry carrying the user's id. -/
def FirstCollabEditor (cols : List Collaborator) (u : Id) : Prop :=
  ∃ (i : Nat) (h : i < cols.length),
    (cols.get ⟨i, h⟩).userId = u ∧
    ((cols.get ⟨i, h⟩).role = Role.editor ∨ (cols.get ⟨i, h⟩).role = Role.admin) ∧
    ∀ (j : Nat) (hj : j < i), (cols.get ⟨j, Nat.lt_trans hj h⟩).userId ≠ u

/-- Environment with the generation capability unconfigured. -/
def unavailableEnv : Env :=
  { available := false, oracle := failingOracle, store := draftStore }

/-- Email generation request fixture. -/
def wEmailReq : EmailReq := { campaignId := "cw", personaId := "p1", userId := "u1" }

/-- Social generation request fixture. -/
def wSocialReq : SocialReq :=
  { campaignId := "cw", personaId := "p1", userId := "u1", platform := "linkedin" }

/-- Ad-copy generation request fixture (platform omitted). -/
def wAdReq : AdReq := { campaignId := "cw", personaId := "p1", userId := "u1" }

/-- Variations generation request fixture. -/
def wVarReq : VarReq :=
  { campaignId := "cw", personaId := "p1", userId := "u1", contentType := "email" }

/-- Batch generation request fixture. -/
def wBatchReq : BatchReq := { campaignId := "cw", personaId := "p1", userId := "u1" }

/-- Predefined persona fixture, readable by everyone. -/
def predefPersona : Persona := { id := "p7", isPredefined := true }

/-- Oracle for the variations counterexample: both email sub-calls
succeed, the second with an empty body. -/
def variationsOracle : AiOracle :=
  { emailGen := fun i =>
      if i == 0 then Except.ok ("Subject", "Hello body") else Except.ok ("Subject", ""),
    socialGen := fun _ _ => Except.error (),
    adGen := fun _ _ => Except.error (),
    score := fun _ => Except.error () }

/-- Campaign fixture for the variations claims. -/
def variationsCamp : Campaign :=
  { id := "c7", userId := "u1", personaId := "p7", name := "Var" }

/-- Store fixture for the variations claims. -/
def variationsStore : Store :=
  { campaigns := [variationsCamp], personas := [predefPersona] }

/-- Environment for the variations counterexample. -/
def variationsEnv : Env :=
  { available := true, oracle := variationsOracle, store := variationsStore }

/-- Variations request with two email variations. -/
def variationsReq : VarReq :=
  { campaignId := "c7", personaId := "p7", userId := "u1",
    contentType := "email", variations := 2 }

/-- Oracle whose email generation always succeeds with a valid body
and whose scoring answers 80. -/
def variationsOkOracle : AiOracle :=
  { emailGen := fun _ => Except.ok ("S", "Body text"),
    socialGen := fun _ _ => Except.error (),
    adGen := fun _ _ => Except.error (),
    score := fun _ => Except.ok 80 }

/-- Environment for the variations witness. -/
def variationsOkEnv : Env :=
  { available := true, oracle := variationsOkOracle, store := variationsStore }

/-- The content item produced by variationsOkOracle. -/
def vItem : Content :=
  { contentType := "email", platform := "email", subjectLine := some "S",
    contentBody := "Body text", hashtags := [], qualityScore := 80 }

/-- Campaign fixture for the batch claims. -/
def batchCamp : Campaign :=
  { id := "c8", userId := "u1", personaId := "p8", name := "Batch" }

/-- Predefined persona fixture for the batch claims. -/
def batchPersona : Persona := { id := "p8", isPredefined := true }

/-- Store fixture for the batch claims. -/
def batchStoreFix : Store :=
  { campaigns := [batchCamp], personas := [batchPersona] }

/-- Batch request over the content types and platforms of the claim
scenario. -/
def batchReqFix : BatchReq :=
  { campaignId := "c8", personaId := "p8", userId := "u1",
    contentTypes := ["email", "social_post"],
    platforms := ["email", "linkedin", "twitter"] }

/-- Oracle for the batch counterexample: email and twitter generation
succeed, linkedin generation rejects. -/
def batchLinkedinFailOracle : AiOracle :=
  { emailGen := fun _ => Except.ok ("S8", "Email body"),
    socialGen := fun pf _ =>
      if pf == "twitter" then Except.ok ("Tweet body", ["#go"]) else Except.error (),
    adGen := fun _ _ => Except.error (),
    score := fun _ => Except.error () }

/-- Environment for the batch counterexample. -/
def batchFailEnv : Env :=
  { available := true, oracle := batchLinkedinFailOracle, store := batchStoreFix }

/-- The email item generated in the batch scenarios. -/
def batchEmailItem : Content :=
  { contentType := "email", platform := "email", subjectLine := some "S8",
    contentBody := "Email body", hashtags := [], qualityScore := 75 }

/-- Oracle for the batch all-success scenario. -/
def batchOkOracle : AiOracle :=
  { emailGen := fun _ => Except.ok ("S8", "Email body"),
    socialGen := fun pf _ => Except.ok ("Post for " ++ pf, ["#x"]),
    adGen := fun _ _ => Except.error (),
    score := fun _ => Except.error () }

/-- Environment for the batch all-success scenario. -/
def batchOkEnv : Env :=
  { available := true, oracle := batchOkOracle, store := batchStoreFix }

/-- The linkedin item generated by batchOkOracle. -/
def batchLItem : Content :=
  { contentType := "social_post", platform := "linkedin", subjectLine := none,
    contentBody := "Post for linkedin", hashtags := ["#x"], qualityScore := 75 }

/-- The twitter item generated by batchOkOracle. -/
def batchTItem : Content :=
  { contentType := "social_post", platform := "twitter", subjectLine := none,
    contentBody := "Post for twitter", hashtags := ["#x"], qualityScore := 75 }

/-- Ad-copy request fixture on the batch store, platform omitted. -/
def adReqFix : AdReq := { campaignId := "c8", personaId := "p8", userId := "u1" }

/-! Theorems settling the claims. -/

/-- C1: the spec states that deleting a campaign succeeds only when the
actor is the owner and the status is draft, and the repository report
documents the same restriction; the handler however checks ownership
only.  Evaluated at the failing input (the owner deleting an active
campaign) the delete succeeds and removes the campaign. -/
theorem deleteCampaign_ignores_status_bug :
    (deleteCampaign activeStore "c1" "u1").response = Except.ok () ∧
    activeCamp.status = Status.active ∧
    findCampaign (deleteCampaign activeStore "c1" "u1").store "c1" = none := by
  decide

/-- C3: the spec and the repository report state that a campaign with
status completed or archived cannot be modified; the update handler
contains no such check.  Evaluated at the failing input (the owner
renaming a completed campaign) the update succeeds and the new name is
persisted. -/
theorem updateCampaign_edits_completed_campaign_bug :
    (updateCampaign completedStore "c2" "u1" { name := some "New name" }).response =
      Except.ok { completedCamp with name := "New name" } ∧
    (findCampaign (updateCampaign completedStore "c2" "u1"
        { name := some "New name" }).store "c2").map (fun c => c.name) =
      some "New name" := by
  decide

/-- C2 counterexample: the claim restricts status changes to the
lifecycle edge set, under which completed never moves back to draft;
the update handler accepts that transition and persists it. -/
theorem updateCampaign_completed_to_draft_accepted :
    (updateCampaign completedStore "c2" "u1" { status := some "draft" }).response =
      Except.ok { completedCamp with status := Status.draft } ∧
    (findCampaign (updateCampaign completedStore "c2" "u1"
        { status := some "draft" }).store "c2").map (fun c => c.status) =
      some Status.draft := by
  decide

/-- Replacement inside a list of campaigns, on the list level: mapping
the replace-if-same-id function over a list whose first id match is c
makes that position the first match and returns the replacement. -/
theorem find?_id_map_replace (l : List Campaign) (cid : Id) (c c2 : Campaign)
    (h : l.find? (fun x => x.id == cid) = some c) (hid : c2.id = c.id) :
    (l.map (fun old => if old.id == c2.id then c2 else old)).find?
      (fun x => x.id == cid) = some c2 := by
  induction l with
  | nil => simp [List.find?] at h
  | cons a l ih =>
    cases hb : (a.id == cid) with
    | true =>
      have h' : a = c := by
        have hh := h
        simp only [List.find?, hb] at hh
        exact Option.some.inj hh
      subst h'
      have hcid : a.id = cid := by simpa using hb
      have h2 : (a.id == c2.id) = true := by simp [hid, hcid]
      have h3 : (c2.id == cid) = true := by simp [hid, hcid]
      simp [List.map_cons, h2, List.find?, h3]
    | false =>
      have h' : List.find? (fun x => x.id == cid) l = some c := by
        have hh := h
        simp only [List.find?, hb] at hh
        exact hh
      have hcid : c.id = cid := by simpa using List.find?_some h'
      have hane : (a.id == c2.id) = false := by
        simp only [beq_eq_false_iff_ne, ne_eq, hid, hcid]
        simpa using hb
      simp only [List.map_cons, hane, Bool.false_eq_true, if_false, List.find?, hb]
      exact ih h'

/-- Replacement of a found campaign by an update with the same id is
observable through findCampaign. -/
theorem findCampaign_replace (s : Store) (cid : Id) (c c2 : Campaign)
    (h : findCampaign s cid = some c) (hid : c2.id = c.id) :
    findCampaign (replaceCampaign s c2) cid = some c2 := by
  unfold findCampaign replaceCampaign
  exact find?_id_map_replace s.campaigns cid c c2 h hid

/-- C2 amended: the only status discipline the code enforces is the
schema enumeration: a requested status outside the enumeration is
rejected with a validation error leaving the store unchanged, while any
status inside the enumeration is accepted from any current status by an
authorized editor and persisted. -/
theorem updateCampaign_status_enum_only
    (s : Store) (cid userId : Id) (c : Campaign) (str : String)
    (hfind : findCampaign s cid = some c)
    (hedit : c.canBeEditedBy userId = true) :
    (parseStatus str = none →
      (updateCampaign s cid userId { status := some str }).response =
        Except.error Err.validation ∧
      (updateCampaign s cid userId { status := some str }).store = s) ∧
    (∀ st, parseStatus str = some st →
      (updateCampaign s cid userId { status := some str }).response =
        Except.ok { c with status := st } ∧
      findCampaign (updateCampaign s cid userId { status := some str }).store cid =
        some { c with status := st }) := by
  constructor
  · intro hnone
    unfold updateCampaign
    rw [hfind]
    simp [hedit, applyPatch, hnone]
  · intro st hsome
    have hrepl := findCampaign_replace s cid c { c with status := st } hfind rfl
    unfold updateCampaign
    rw [hfind]
    simp [hedit, applyPatch, hsome, hrepl]

/-- C2 witness: on a concrete draft campaign, a status outside the
enumeration is rejected without mutation while a direct jump to active
is accepted. -/
theorem updateCampaign_status_enum_only_witness :
    ((updateCampaign draftStore "cw" "u1" { status := some "launching" }).response =
        Except.error Err.validation ∧
      (updateCampaign draftStore "cw" "u1" { status := some "launching" }).store =
        draftStore) ∧
    (updateCampaign draftStore "cw" "u1" { status := some "active" }).response =
      Except.ok { draftCamp with status := Status.active } := by
  refine ⟨(updateCampaign_status_enum_only draftStore "cw" "u1" draftCamp "launching"
      (by decide) (by decide)).1 rfl, ?_⟩
  exact ((updateCampaign_status_enum_only draftStore "cw" "u1" draftCamp "active"
      (by decide) (by decide)).2 Status.active rfl).1

/-- C4 counterexample: the claim states that the persona-readability
check denies every actor when a custom persona has no owner reference;
on such a persona the check permits an unrelated actor and campaign
creation proceeds to a draft campaign. -/
theorem personaGate_missing_owner_permits :
    personaAccessDenied ownerlessPersona "u9" = false ∧
    ownerlessPersona.isPredefined = false ∧
    ownerlessPersona.userId = none ∧
    (createCampaign ownerlessStore "u9" ⟨"p4", "N"⟩ "c9").response =
      Except.ok { id := "c9", userId := "u9", personaId := "p4", name := "N" } := by
  decide

/-- C4 amended: the persona gate fails open, not closed: for every
custom persona whose owner reference is absent, the gate permits every
actor, and campaign creation with such a persona is never rejected for
permission. -/
theorem personaGate_fails_open (p : Persona) (u : Id)
    (_hcustom : p.isPredefined = false) (howner : p.userId = none) :
    personaAccessDenied p u = false ∧
    ∀ (s : Store) (body : CreateBody) (newId : Id),
      findPersona s body.personaId = some p →
      (createCampaign s u body newId).response ≠ Except.error Err.permission := by
  have hd : personaAccessDenied p u = false := by
    simp [personaAccessDenied, howner]
  refine ⟨hd, ?_⟩
  intro s body newId hfind
  unfold createCampaign
  rw [hfind]
  simp only [hd, Bool.false_eq_true, if_false]
  cases hv : validName body.name <;> simp [hv]

/-- C4 witness: the amended statement evaluated on the concrete
ownerless persona and an unrelated actor. -/
theorem personaGate_fails_open_witness :
    personaAccessDenied ownerlessPersona "u7" = false ∧
    (createCampaign ownerlessStore "u7" ⟨"p4", "W"⟩ "c7x").response ≠
      Except.error Err.permission := by
  have h := personaGate_fails_open ownerlessPersona "u7" rfl rfl
  exact ⟨h.1, h.2 ownerlessStore ⟨"p4", "W"⟩ "c7x" (by decide)⟩

/-- C5 counterexample: a campaign holding a viewer entry before an
admin entry for the same user falsifies the claim: an editor-or-admin
collaborator entry exists for the user, yet edit permission is
denied, because only the first matching entry is consulted. -/
theorem canBeEditedBy_duplicate_entries_counterexample :
    dupCollabCamp.canBeEditedBy "u2" = false ∧
    (dupCollabCamp.collaborators.any fun col =>
      col.userId == "u2" && (col.role == Role.editor || col.role == Role.admin)) = true := by
  decide

/-- C5 amended: edit permission holds exactly when the user owns the
campaign or the first collaborator entry carrying the user's id has
role editor or admin; a viewer entry never grants edit, and a viewer
entry placed before an editor or admin entry for the same user hides
it. -/
theorem canBeEditedBy_first_match_iff (c : Campaign) (u : Id) :
    c.canBeEditedBy u = true ↔ (c.userId = u ∨ FirstCollabEditor c.collaborators u) := by
  unfold Campaign.canBeEditedBy Campaign.isOwnedBy
  cases howner : (c.userId == u) with
  | true =>
    have heq : c.userId = u := by simpa using howner
    simp [heq]
  | false =>
    have howner' : c.userId ≠ u := by simpa using howner
    simp only [howner, Bool.false_eq_true, if_false]
    cases hf : c.collaborators.find? (fun col => col.userId == u) with
    | none =>
      simp only [hf]
      constructor
      · intro hfalse
        simp at hfalse
      · rintro (heq | ⟨i, hi, hu, _, _⟩)
        · exact absurd heq howner'
        · have hmem : c.collaborators.get ⟨i, hi⟩ ∈ c.collaborators :=
            List.get_mem c.collaborators i hi
          have hnone := List.find?_eq_none.mp hf _ hmem
          simp only [List.get_eq_getElem] at hu
          simp [hu] at hnone
    | some col =>
      simp only [hf]
      rw [List.find?_eq_some_iff_getElem] at hf
      obtain ⟨hpcol, i, hi, hcoleq, hbefore⟩ := hf
      have hcu : col.userId = u := by simpa using hpcol
      constructor
      · intro hrole
        have hrole' : col.role = Role.editor ∨ col.role = Role.admin := by
          simpa using hrole
        refine Or.inr ⟨i, hi, ?_, ?_, ?_⟩
        · simp [List.get_eq_getElem, hcoleq, hcu]
        · simpa [List.get_eq_getElem, hcoleq] using hrole'
        · intro j hj
          have hok := hbefore j hj
          simp only [List.get_eq_getElem]
          intro hju
          simp [hju] at hok
      · rintro (heq | ⟨i2, hi2, hu2, hrole2, hbefore2⟩)
        · exact absurd heq howner'
        · rw [List.get_eq_getElem] at hu2 hrole2
          have hii : i = i2 := by
            rcases Nat.lt_trichotomy i i2 with hlt | heq2 | hgt
            · exfalso
              have hb2 := hbefore2 i hlt
              rw [List.get_eq_getElem, hcoleq] at hb2
              exact hb2 hcu
            · exact heq2
            · exfalso
              have hb1 := hbefore i2 hgt
              simp [hu2] at hb1
          subst hii
          rw [hcoleq] at hrole2
          simpa using hrole2

/-- C9 counterexample: with every counter zero and a stale nonzero ctr,
the pre-save middleware leaves ctr at its stale value instead of the
zero the claim requires. -/
theorem metrics_hook_keeps_stale_ratios :
    (computeMetricsHook staleMetrics).ctr = 5 ∧
    staleMetrics.totalImpressions = 0 ∧ (5 : Rat) ≠ 0 := by
  decide

/-- C9 amended: each derived ratio is recomputed by the exact formula
of the claim when its denominator counter is positive, and is left at
its previous value (not reset to zero) when the denominator is zero or
negative; the recomputation is idempotent. -/
theorem computeMetricsHook_spec (m : Metrics) :
    (m.totalImpressions > 0 →
      (computeMetricsHook m).ctr = m.totalClicks / m.totalImpressions * 100) ∧
    (¬ m.totalImpressions > 0 → (computeMetricsHook m).ctr = m.ctr) ∧
    (m.totalClicks > 0 →
      (computeMetricsHook m).cpc = m.totalSpent / m.totalClicks) ∧
    (¬ m.totalClicks > 0 → (computeMetricsHook m).cpc = m.cpc) ∧
    (m.totalConversions > 0 →
      (computeMetricsHook m).cpa = m.totalSpent / m.totalConversions) ∧
    (¬ m.totalConversions > 0 → (computeMetricsHook m).cpa = m.cpa) ∧
    computeMetricsHook (computeMetricsHook m) = computeMetricsHook m := by
  unfold computeMetricsHook
  by_cases h1 : m.totalImpressions > 0 <;>
    by_cases h2 : m.totalClicks > 0 <;>
      by_cases h3 : m.totalConversions > 0 <;>
        simp [h1, h2, h3]

/-- C9 witness: the amended statement evaluated on metrics with
positive counters, together with the idempotence consequence. -/
theorem computeMetricsHook_spec_witness :
    (computeMetricsHook liveMetrics).ctr =
      liveMetrics.totalClicks / liveMetrics.totalImpressions * 100 ∧
    computeMetricsHook (computeMetricsHook liveMetrics) =
      computeMetricsHook liveMetrics := by
  have h := computeMetricsHook_spec liveMetrics
  exact ⟨h.1 (by decide), h.2.2.2.2.2.2⟩

/-- C6: when the generation capability is unconfigured, each of the
five generation handlers answers ServiceUnavailable immediately: no
campaign or persona lookup is reached and the store is unchanged. -/
theorem generation_unavailable_fails_fast (env : Env) (r1 : EmailReq) (r2 : SocialReq)
    (r3 : AdReq) (r4 : VarReq) (r5 : BatchReq) (h : env.available = false) :
    generateEmailCtrl env r1 =
      ⟨Except.error Err.serviceUnavailable, env.store, false⟩ ∧
    generateSocialCtrl env r2 =
      ⟨Except.error Err.serviceUnavailable, env.store, false⟩ ∧
    generateAdCopyCtrl env r3 =
      ⟨Except.error Err.serviceUnavailable, env.store, false⟩ ∧
    generateVariationsCtrl env r4 =
      ⟨Except.error Err.serviceUnavailable, env.store, false⟩ ∧
    batchGenerateCtrl env r5 =
      ⟨Except.error Err.serviceUnavailable, env.store, false⟩ := by
  unfold generateEmailCtrl generateSocialCtrl generateAdCopyCtrl
    generateVariationsCtrl batchGenerateCtrl
  simp [h]

/-- C6 witness: the fail-fast behavior evaluated on a concrete
unconfigured environment and concrete requests. -/
theorem generation_unavailable_fails_fast_witness :
    generateEmailCtrl unavailableEnv wEmailReq =
      ⟨Except.error Err.serviceUnavailable, unavailableEnv.store, false⟩ ∧
    generateSocialCtrl unavailableEnv wSocialReq =
      ⟨Except.error Err.serviceUnavailable, unavailableEnv.store, false⟩ ∧
    generateAdCopyCtrl unavailableEnv wAdReq =
      ⟨Except.error Err.serviceUnavailable, unavailableEnv.store, false⟩ ∧
    generateVariationsCtrl unavailableEnv wVarReq =
      ⟨Except.error Err.serviceUnavailable, unavailableEnv.store, false⟩ ∧
    batchGenerateCtrl unavailableEnv wBatchReq =
      ⟨Except.error Err.serviceUnavailable, unavailableEnv.store, false⟩ :=
  generation_unavailable_fails_fast unavailableEnv wEmailReq wSocialReq wAdReq
    wVarReq wBatchReq rfl

/-- Sequential appends of schema-valid items through addContent all
succeed and extend the content list in order, leaving id and
generation settings unchanged. -/
theorem appendLoop_ok : ∀ (items : List Content) (c : Campaign),
    items.all validContent = true →
    settingsValid c.generationSettings = true →
    ∃ c2, appendLoop c items = Except.ok c2 ∧
      c2.content = c.content ++ items ∧ c2.id = c.id ∧
      c2.generationSettings = c.generationSettings := by
  intro items
  induction items with
  | nil =>
    intro c _ _
    exact ⟨c, rfl, by simp, rfl, rfl⟩
  | cons item rest ih =>
    intro c hv hs
    simp only [List.all_cons, Bool.and_eq_true] at hv
    have hadd : c.addContent item = Except.ok
        { c with content := c.content ++ [item],
                 metrics := computeMetricsHook c.metrics } := by
      unfold Campaign.addContent
      rw [if_pos (by simp [hv.1, hs])]
    obtain ⟨c2, hloop, hcont, hid, hset⟩ :=
      ih { c with content := c.content ++ [item],
                  metrics := computeMetricsHook c.metrics } hv.2 hs
    refine ⟨c2, ?_, ?_, hid, hset⟩
    · simp only [appendLoop, hadd]
      exact hloop
    · rw [hcont]
      simp

/-- A resolved promise join carries one value per promise. -/
theorem promiseAll_ok_length : ∀ (l : List (Except Unit Content)) (items : List Content),
    promiseAll l = Except.ok items → items.length = l.length := by
  intro l
  induction l with
  | nil =>
    intro items h
    cases h
    rfl
  | cons a l ih =>
    intro items h
    cases a with
    | error e => simp [promiseAll] at h
    | ok b =>
      cases hrest : promiseAll l with
      | error e => simp [promiseAll, hrest] at h
      | ok bs =>
        simp only [promiseAll, hrest] at h
        cases h
        simp [ih bs hrest]

/-- Filtering with a function that never drops an element preserves the
length. -/
theorem filterMap_length_all_some {α β : Type} (f : α → Option β) :
    ∀ l : List α, (∀ a ∈ l, (f a).isSome = true) →
      (l.filterMap f).length = l.length := by
  intro l
  induction l with
  | nil => intro _; rfl
  | cons a l ih =>
    intro h
    have ha := h a (by simp)
    obtain ⟨b, hb⟩ := Option.isSome_iff_exists.mp ha
    rw [List.filterMap_cons, hb]
    simp [ih (fun x hx => h x (by simp [hx]))]

/-- Every index contributes one promise when the content type is one of
the three supported by the variations handler. -/
theorem svcVarOne_isSome (o : AiOracle) (camp : Campaign) (ct : String) (i : Nat)
    (h : validVarContentType ct = true) : (svcVarOne o camp ct i).isSome = true := by
  by_cases h1 : (ct == "email") = true
  · simp [svcVarOne, h1]
  · by_cases h2 : (ct == "social_post") = true
    · simp [svcVarOne, h1, h2]
    · have h3 : (ct == "ad_copy") = true := by
        simp only [validVarContentType, h1, h2, Bool.false_or] at h
        exact h
      simp [svcVarOne, h1, h2, h3]

/-- A resolved variations call returns exactly the requested number of
items. -/
theorem svcVariations_length (o : AiOracle) (camp : Campaign) (ct : String) (n : Nat)
    (hct : validVarContentType ct = true) (items : List Content)
    (h : svcVariations o camp ct n = Except.ok items) : items.length = n := by
  unfold svcVariations at h
  have hlen := promiseAll_ok_length _ _ h
  rw [hlen,
    filterMap_length_all_some _ _ (fun a _ => svcVarOne_isSome o camp ct a hct),
    List.length_range]

/-- C7 counterexample: with two email sub-generations both resolving
(the second with an empty body), the variations handler persists
exactly one of the two items before the failed save aborts it, so a
strict non-empty subset of the variations is appended, which the claim
rules out. -/
theorem variations_partial_append_counterexample :
    (generateVariationsCtrl variationsEnv variationsReq).response =
      Except.error Err.validation ∧
    (findCampaign (generateVariationsCtrl variationsEnv variationsReq).store "c7").map
      (fun c => c.content.length) = some 1 ∧
    (svcEmail variationsOracle 0).isOk = true ∧
    (svcEmail variationsOracle 1).isOk = true := by
  decide

/-- C7 amended: appends only start after every sub-generation has
resolved, so a rejected sub-generation yields zero appended items; when
all sub-generations resolve and every resolved item passes the content
schema, exactly N items are appended; a resolved item that fails the
schema can still abort the sequential append loop midway. -/
theorem variations_all_or_nothing
    (env : Env) (req : VarReq) (camp : Campaign) (p : Persona)
    (hav : env.available = true)
    (hct : validVarContentType req.contentType = true)
    (hlo : 2 ≤ req.variations) (hhi : req.variations ≤ 5)
    (hc : findCampaign env.store req.campaignId = some camp)
    (hp : findPersona env.store req.personaId = some p)
    (hedit : camp.canBeEditedBy req.userId = true)
    (hpa : personaAccessDenied p req.userId = false) :
    (svcVariations env.oracle (varCampaign camp req) req.contentType
        req.variations.toNat = Except.error () →
      (generateVariationsCtrl env req).response = Except.error Err.generation ∧
      (generateVariationsCtrl env req).store = env.store) ∧
    (∀ items,
      svcVariations env.oracle (varCampaign camp req) req.contentType
        req.variations.toNat = Except.ok items →
      items.all validContent = true →
      settingsValid (varCampaign camp req).generationSettings = true →
      (generateVariationsCtrl env req).response = Except.ok items ∧
      items.length = req.variations.toNat ∧
      (findCampaign (generateVariationsCtrl env req).store req.campaignId).map
          (fun c2 => c2.content) =
        some ((varCampaign camp req).content ++ items)) := by
  have hcount : (req.variations < 2 || req.variations > 5) = false := by
    simp only [Bool.or_eq_false_iff, decide_eq_false_iff_not]
    omega
  constructor
  · intro herr
    unfold generateVariationsCtrl
    simp [hav, hct, hcount, hc, hp, hedit, hpa, herr]
  · intro items hok hvalid hsettings
    obtain ⟨c2, hloop, hcont, hid, _⟩ :=
      appendLoop_ok items (varCampaign camp req) hvalid hsettings
    have hvid : (varCampaign camp req).id = camp.id := by
      unfold varCampaign
      by_cases hsp : (req.contentType == "social_post") = true <;> simp [hsp]
    have hrepl := findCampaign_replace env.store req.campaignId camp c2 hc
      (by rw [hid, hvid])
    unfold generateVariationsCtrl
    simp only [hav, Bool.not_true, Bool.false_eq_true, if_false, hct, hcount,
      Bool.not_false, if_true, hc, hp, hedit, hpa, hok, hloop, hrepl]
    refine ⟨trivial, svcVariations_length _ _ _ _ hct items hok, ?_⟩
    simp [hcont]

/-- C7 witness: the amended statement evaluated on an oracle whose two
email sub-generations resolve with valid bodies; both items are
appended. -/
theorem variations_all_or_nothing_witness :
    (generateVariationsCtrl variationsOkEnv variationsReq).response =
      Except.ok [vItem, vItem] ∧
    ([vItem, vItem] : List Content).length = variationsReq.variations.toNat ∧
    (findCampaign (generateVariationsCtrl variationsOkEnv variationsReq).store
        variationsReq.campaignId).map (fun c2 => c2.content) =
      some ((varCampaign variationsCamp variationsReq).content ++ [vItem, vItem]) := by
  have h := variations_all_or_nothing variationsOkEnv variationsReq variationsCamp
    predefPersona rfl (by decide) (by decide) (by decide) (by decide) (by decide)
    (by decide) (by decide)
  exact h.2 [vItem, vItem] (by decide) (by decide) (by decide)

/-- C8 counterexample: over the claim's scenario with exactly one
failing social call (linkedin), the twitter generation would succeed
but is never reached: the response carries only the email item plus one
error entry, not the successful twitter item the claim requires. -/
theorem batch_skips_after_social_failure_counterexample :
    (batchGenerateCtrl batchFailEnv batchReqFix).response =
      Except.ok ([batchEmailItem], ["social_post"]) ∧
    (svcSocial batchLinkedinFailOracle "twitter" 0).isOk = true := by
  decide

/-- C8 amended: batch generation isolates failures per content type,
not per item: over contentTypes email and social_post with platforms
email, linkedin and twitter, all-success appends one email and two
social items with an empty error list; a failure of the last social
call keeps the earlier items and records one error entry; a failure of
the first social call records one error entry but abandons the
remaining social platforms of that content type, while other content
types still run. -/
theorem batch_per_type_isolation
    (env : Env) (req : BatchReq) (camp : Campaign) (p : Persona)
    (hav : env.available = true)
    (hc : findCampaign env.store req.campaignId = some camp)
    (hp : findPersona env.store req.personaId = some p)
    (hedit : camp.canBeEditedBy req.userId = true)
    (hpa : personaAccessDenied p req.userId = false)
    (hci : req.customInstructions = none)
    (hcts : req.contentTypes = ["email", "social_post"])
    (hpfs : req.platforms = ["email", "linkedin", "twitter"])
    (hs : settingsValid camp.generationSettings = true) :
    (∀ e l t,
      svcEmail env.oracle 0 = Except.ok e → validContent e = true →
      svcSocial env.oracle "linkedin" 0 = Except.ok l → validContent l = true →
      svcSocial env.oracle "twitter" 0 = Except.ok t → validContent t = true →
      (batchGenerateCtrl env req).response = Except.ok ([e, l, t], [])) ∧
    (∀ e,
      svcEmail env.oracle 0 = Except.ok e → validContent e = true →
      svcSocial env.oracle "linkedin" 0 = Except.error () →
      (batchGenerateCtrl env req).response = Except.ok ([e], ["social_post"])) ∧
    (∀ e l,
      svcEmail env.oracle 0 = Except.ok e → validContent e = true →
      svcSocial env.oracle "linkedin" 0 = Except.ok l → validContent l = true →
      svcSocial env.oracle "twitter" 0 = Except.error () →
      (batchGenerateCtrl env req).response = Except.ok ([e, l], ["social_post"])) := by
  refine ⟨?_, ?_, ?_⟩
  · intro e l t hge hve hgl hvl hgt hvt
    unfold batchGenerateCtrl
    simp [hav, hc, hp, hedit, hpa, hci, hcts, hpfs, mergeInstructions,
      runBatch, runSocialLeg, Campaign.addContent, hge, hve, hgl, hvl, hgt, hvt, hs]
  · intro e hge hve hgl
    unfold batchGenerateCtrl
    simp [hav, hc, hp, hedit, hpa, hci, hcts, hpfs, mergeInstructions,
      runBatch, runSocialLeg, Campaign.addContent, hge, hve, hgl, hs]
  · intro e l hge hve hgl hvl hgt
    unfold batchGenerateCtrl
    simp [hav, hc, hp, hedit, hpa, hci, hcts, hpfs, mergeInstructions,
      runBatch, runSocialLeg, Campaign.addContent, hge, hve, hgl, hvl, hgt, hs]

/-- C8 witness: the all-success scenario of the amended statement
evaluated on a concrete oracle: one email item and one item per
non-email platform are appended with an empty error list. -/
theorem batch_per_type_isolation_witness :
    (batchGenerateCtrl batchOkEnv batchReqFix).response =
      Except.ok ([batchEmailItem, batchLItem, batchTItem], []) := by
  have h := batch_per_type_isolation batchOkEnv batchReqFix batchCamp batchPersona
    rfl (by decide) (by decide) (by decide) (by decide) rfl rfl rfl (by decide)
  exact h.1 batchEmailItem batchLItem batchTItem (by decide) (by decide)
    (by decide) (by decide) (by decide) (by decide)

/-- A resolved email generation call yields an item of content type
email. -/
theorem svcEmail_contentType (o : AiOracle) (i : Nat) (it : Content)
    (h : svcEmail o i = Except.ok it) : it.contentType = "email" := by
  unfold svcEmail at h
  cases hg : o.emailGen i with
  | error e => rw [hg] at h; cases h
  | ok pr =>
    rw [hg] at h
    obtain ⟨subj, body⟩ := pr
    cases h
    rfl

/-- A resolved social generation call yields an item of content type
social_post. -/
theorem svcSocial_contentType (o : AiOracle) (pf : String) (i : Nat) (it : Content)
    (h : svcSocial o pf i = Except.ok it) : it.contentType = "social_post" := by
  unfold svcSocial at h
  cases hg : o.socialGen pf i with
  | error e => rw [hg] at h; cases h
  | ok pr =>
    rw [hg] at h
    obtain ⟨body, tags⟩ := pr
    cases h
    rfl

/-- A resolved ad-copy generation call carries the platform it was
invoked with. -/
theorem svcAd_platform (o : AiOracle) (pf : String) (i : Nat) (it : Content)
    (h : svcAd o pf i = Except.ok it) : it.platform = pf := by
  unfold svcAd at h
  cases hg : o.adGen pf i with
  | error e => rw [hg] at h; cases h
  | ok body =>
    rw [hg] at h
    cases h
    rfl

/-- Persisting an item whose platform is google-ads always fails the
embedded schema validation. -/
theorem addContent_invalid_platform (c : Campaign) (it : Content)
    (hpf : it.platform = "google-ads") :
    c.addContent it = Except.error Err.validation := by
  have hvp : validPlatform "google-ads" = false := by decide
  have hval : validContent it = false := by
    unfold validContent
    rw [hpf, hvp]
    simp
  unfold Campaign.addContent
  rw [hval]
  simp

/-- Every item appended by the social leg of the batch loop has content
type social_post. -/
theorem runSocialLeg_types (o : AiOracle) :
    ∀ (pfs : List String) (camp : Campaign) (item : Content),
      item ∈ (runSocialLeg o camp pfs).2.1 → item.contentType = "social_post" := by
  intro pfs
  induction pfs with
  | nil =>
    intro camp item h
    simp [runSocialLeg] at h
  | cons pf rest ih =>
    intro camp item h
    unfold runSocialLeg at h
    cases hg : svcSocial o pf 0 with
    | error e => simp [hg] at h
    | ok it =>
      simp only [hg] at h
      cases ha : camp.addContent it with
      | error e => simp [ha] at h
      | ok c2 =>
        simp only [ha] at h
        rcases hrun : runSocialLeg o c2 rest with ⟨cEnd, items, failed⟩
        simp only [hrun] at h
        rcases List.mem_cons.mp h with h | h
        · rw [h]
          exact svcSocial_contentType o pf 0 it hg
        · have hmem2 : item ∈ (runSocialLeg o c2 rest).2.1 := by
            rw [hrun]
            exact h
          exact ih c2 item hmem2

/-- No item appended by the batch loop ever has content type ad_copy:
the ad leg's item always carries platform google-ads and its save is
always rejected by the schema. -/
theorem runBatch_no_ad (o : AiOracle) :
    ∀ (cts : List String) (camp : Campaign) (platforms : List String) (item : Content),
      item ∈ (runBatch o camp platforms cts).2.1 → item.contentType ≠ "ad_copy" := by
  intro cts
  induction cts with
  | nil =>
    intro camp pfs item h
    simp [runBatch] at h
  | cons ct rest ih =>
    intro camp pfs item h
    unfold runBatch at h
    by_cases h1 : (ct == "email") = true
    · rw [if_pos h1] at h
      cases hg : svcEmail o 0 with
      | error e =>
        simp only [hg] at h
        rcases hrb : runBatch o camp pfs rest with ⟨cEnd, items2, errs2⟩
        simp only [hrb, List.nil_append] at h
        have hmem2 : item ∈ (runBatch o camp pfs rest).2.1 := by
          rw [hrb]; exact h
        exact ih camp pfs item hmem2
      | ok it =>
        simp only [hg] at h
        cases ha : camp.addContent it with
        | error e =>
          simp only [ha] at h
          rcases hrb : runBatch o camp pfs rest with ⟨cEnd, items2, errs2⟩
          simp only [hrb, List.nil_append] at h
          have hmem2 : item ∈ (runBatch o camp pfs rest).2.1 := by
            rw [hrb]; exact h
          exact ih camp pfs item hmem2
        | ok c2 =>
          simp only [ha] at h
          rcases hrb : runBatch o c2 pfs rest with ⟨cEnd, items2, errs2⟩
          simp only [hrb, List.cons_append, List.nil_append] at h
          rcases List.mem_cons.mp h with h | h
          · rw [h, svcEmail_contentType o 0 it hg]
            decide
          · have hmem2 : item ∈ (runBatch o c2 pfs rest).2.1 := by
              rw [hrb]; exact h
            exact ih c2 pfs item hmem2
    · rw [if_neg h1] at h
      by_cases h2 : (ct == "social_post") = true
      · rw [if_pos h2] at h
        rcases hsl : runSocialLeg o camp (pfs.filter fun pf => pf != "email")
          with ⟨cMid, items1, failed⟩
        simp only [hsl] at h
        rcases hrb : runBatch o cMid pfs rest with ⟨cEnd, items2, errs2⟩
        simp only [hrb] at h
        rcases List.mem_append.mp h with h | h
        · have hmem1 : item ∈ (runSocialLeg o camp
              (pfs.filter fun pf => pf != "email")).2.1 := by
            rw [hsl]; exact h
          rw [runSocialLeg_types o _ _ item hmem1]
          decide
        · have hmem2 : item ∈ (runBatch o cMid pfs rest).2.1 := by
            rw [hrb]; exact h
          exact ih cMid pfs item hmem2
      · rw [if_neg h2] at h
        by_cases h3 : (ct == "ad_copy") = true
        · rw [if_pos h3] at h
          cases hg : svcAd o "google-ads" 0 with
          | error e =>
            simp only [hg] at h
            rcases hrb : runBatch o camp pfs rest with ⟨cEnd, items2, errs2⟩
            simp only [hrb, List.nil_append] at h
            have hmem2 : item ∈ (runBatch o camp pfs rest).2.1 := by
              rw [hrb]; exact h
            exact ih camp pfs item hmem2
          | ok it =>
            simp only [hg,
              addContent_invalid_platform camp it (svcAd_platform o _ 0 it hg)] at h
            rcases hrb : runBatch o camp pfs rest with ⟨cEnd, items2, errs2⟩
            simp only [hrb, List.nil_append] at h
            have hmem2 : item ∈ (runBatch o camp pfs rest).2.1 := by
              rw [hrb]; exact h
            exact ih camp pfs item hmem2
        · rw [if_neg h3] at h
          rcases hrb : runBatch o camp pfs rest with ⟨cEnd, items2, errs2⟩
          simp only [hrb, List.nil_append] at h
          have hmem2 : item ∈ (runBatch o camp pfs rest).2.1 := by
            rw [hrb]; exact h
          exact ih camp pfs item hmem2

/-- C10: an ad-copy generation request that omits the platform field
always produces the off-enumeration platform google-ads, so the single
ad-copy handler always answers an error and leaves the store unchanged,
and the ad_copy leg of batch generation (which never passes a platform)
never contributes an item to the response. -/
theorem adcopy_default_platform_never_persists :
    (∀ (env : Env) (req : AdReq), req.platform = none →
      Except.isOk (generateAdCopyCtrl env req).response = false ∧
      (generateAdCopyCtrl env req).store = env.store) ∧
    (∀ (env : Env) (req : BatchReq) (items : List Content) (errs : List String),
      (batchGenerateCtrl env req).response = Except.ok (items, errs) →
      ∀ item ∈ items, item.contentType ≠ "ad_copy") := by
  constructor
  · intro env req hnone
    unfold generateAdCopyCtrl
    cases hav : env.available with
    | false => simp [Except.isOk, Except.toBool]
    | true =>
      simp only [Bool.not_true, Bool.false_eq_true, if_false]
      cases hc : findCampaign env.store req.campaignId with
      | none => simp [Except.isOk, Except.toBool]
      | some camp =>
        cases hp : findPersona env.store req.personaId with
        | none => simp [Except.isOk, Except.toBool]
        | some p =>
          simp only []
          cases hedit : camp.canBeEditedBy req.userId with
          | false => simp [hedit, Except.isOk, Except.toBool]
          | true =>
            cases hpa : personaAccessDenied p req.userId with
            | true => simp [hedit, hpa, Except.isOk, Except.toBool]
            | false =>
              simp only [hedit, hpa, Bool.not_true, Bool.false_eq_true, if_false,
                Bool.not_false, if_true]
              rw [hnone]
              cases hg : svcAd env.oracle (Option.getD none "google-ads") 0 with
              | error e => simp [Except.isOk, Except.toBool]
              | ok it =>
                have had := addContent_invalid_platform
                  (mergeInstructions camp req.customInstructions) it
                  (svcAd_platform env.oracle _ 0 it hg)
                simp [had, Except.isOk, Except.toBool]
  · intro env req items errs hresp item hmem
    unfold batchGenerateCtrl at hresp
    cases hav : env.available with
    | false => rw [hav] at hresp; simp at hresp
    | true =>
      rw [hav] at hresp
      simp only [Bool.not_true, Bool.false_eq_true, if_false] at hresp
      cases hc : findCampaign env.store req.campaignId with
      | none => rw [hc] at hresp; simp at hresp
      | some camp =>
        cases hp : findPersona env.store req.personaId with
        | none => rw [hc, hp] at hresp; simp at hresp
        | some p =>
          rw [hc, hp] at hresp
          simp only [] at hresp
          cases hedit : camp.canBeEditedBy req.userId with
          | false => simp [hedit] at hresp
          | true =>
            cases hpa : personaAccessDenied p req.userId with
            | true => simp [hedit, hpa] at hresp
            | false =>
              simp only [hedit, hpa, Bool.not_true, Bool.false_eq_true, if_false,
                Bool.not_false, if_true] at hresp
              rcases hrb : runBatch env.oracle
                  (mergeInstructions camp req.customInstructions)
                  req.platforms req.contentTypes with ⟨cEnd, items0, errs0⟩
              rw [hrb] at hresp
              simp only [] at hresp
              have hitems : items = items0 := by
                injection hresp with hpair
                injection hpair with hi he
                exact hi.symm
              subst hitems
              have hmem' : item ∈ (runBatch env.oracle
                  (mergeInstructions camp req.customInstructions)
                  req.platforms req.contentTypes).2.1 := by
                rw [hrb]
                exact hmem
              exact runBatch_no_ad env.oracle req.contentTypes _ req.platforms item hmem'

/-- C10 witness: on a concrete full-path environment the ad-copy
handler with platform omitted answers an error, and a concrete batch
run containing the ad_copy leg yields no ad_copy item. -/
theorem adcopy_default_platform_never_persists_witness :
    Except.isOk (generateAdCopyCtrl batchOkEnv adReqFix).response = false ∧
    (generateAdCopyCtrl batchOkEnv adReqFix).store = batchOkEnv.store ∧
    batchEmailItem.contentType ≠ "ad_copy" := by
  refine ⟨(adcopy_default_platform_never_persists.1 batchOkEnv adReqFix rfl).1,
    (adcopy_default_platform_never_persists.1 batchOkEnv adReqFix rfl).2, ?_⟩
  exact adcopy_default_platform_never_persists.2 batchOkEnv batchReqFix
    [batchEmailItem, batchLItem, batchTItem] [] (by decide) batchEmailItem
    (by decide)

end Marketing
